import Mathlib

/-!
Verification of the session/protocol handler of the Canvas LMS MCP server.

The development shallowly embeds the `MCPHandler` class (connection admission,
handshake state machine, JSON-RPC dispatch, heartbeat sweeping, outbound error
framing), the `CanvasToolRegistry` catalog (`executeTool`, `getPrompt`) and the
shape checks of the message codec.  External collaborators (the Canvas HTTP
client, `JSON.parse`, the SSE transport write) are modelled as oracles supplied
to each step, so every path of the handler is a total computable function of
its inputs and oracles.
-/

namespace CanvasMcp

/-- JSON-RPC message id: `string | number` in the source. -/
inductive MCPId where
  | str (s : String)
  | num (n : Int)
  deriving Repr, DecidableEq

/-- JavaScript falsiness of an id value: the empty string and the number 0. -/
def MCPId.isFalsy : MCPId → Bool
  | .str s => s == ""
  | .num n => n == 0

/-- JavaScript truthiness of an optional string field (`undefined` and `""` are falsy). -/
def strTruthy : Option String → Bool
  | none => false
  | some s => s != ""

/-- Primitive JSON value, used for uninterpreted tool/prompt argument entries. -/
inductive JsonPrim where
  | null
  | bool (b : Bool)
  | num (n : Int)
  | str (s : String)
  deriving Repr, DecidableEq

/-- JavaScript template-literal rendering of a primitive value. -/
def JsonPrim.interp : JsonPrim → String
  | .null => "null"
  | .bool b => if b then "true" else "false"
  | .num n => toString n
  | .str s => s

/-- JavaScript truthiness of a primitive value. -/
def JsonPrim.truthy : JsonPrim → Bool
  | .null => false
  | .bool b => b
  | .num n => n != 0
  | .str s => s != ""

/-- The argument bag of a `tools/call` / `prompts/get` request
(`Record<string, any>` in the source): the credential field, which is the one
entry the dispatcher itself reads, plus the remaining uninterpreted entries. -/
structure ToolArguments where
  access_token : Option String
  fields : List (String × JsonPrim)
  deriving Repr, DecidableEq

/-- Rendering of `args.k` inside a template literal (`undefined` when the key is absent). -/
def ToolArguments.interp (a : ToolArguments) (k : String) : String :=
  match a.fields.lookup k with
  | none => "undefined"
  | some v => v.interp

/-- Truthiness of `args.k` (absent keys are `undefined`, hence falsy). -/
def ToolArguments.truth (a : ToolArguments) (k : String) : Bool :=
  match a.fields.lookup k with
  | none => false
  | some v => v.truthy

/-- `MCPClientInfo` from src/types/mcp.ts. -/
structure MCPClientInfo where
  name : String
  version : String
  deriving Repr, DecidableEq

/-- `MCPRootsCapability` from src/types/mcp.ts. -/
structure MCPRootsCapability where
  listChanged : Option Bool
  deriving Repr, DecidableEq

/-- `MCPClientCapabilities` from src/types/mcp.ts (`sampling` is an empty interface,
its presence is all that can be recorded). -/
structure MCPClientCapabilities where
  roots : Option MCPRootsCapability
  sampling : Option Unit
  deriving Repr, DecidableEq

/-- `MCPError` from src/types/mcp.ts. The optional `data` field is omitted:
no call site of `sendError` in the handler ever supplies it. -/
structure MCPError where
  code : Int
  message : String
  deriving Repr, DecidableEq

/-- The decoded `params` object of an inbound request, as an open record of the
optional fields the dispatcher reads (`MCPInitializeParams` for `initialize`,
`{name, arguments}` for `tools/call` / `prompts/get`).  A field absent from the
wire object is `none`. -/
structure MCPParams where
  protocolVersion : Option String
  capabilities : Option MCPClientCapabilities
  clientInfo : Option MCPClientInfo
  name : Option String
  arguments : Option ToolArguments
  deriving Repr, DecidableEq

/-- `MCPMessage` from src/types/mcp.ts, as decoded from an inbound JSON object.
The inbound `result` payload is opaque to the handler (only its presence is
tested), so it is carried as its serialized text. -/
structure MCPMessage where
  jsonrpc : String
  id : Option MCPId
  method : Option String
  params : Option MCPParams
  result : Option String
  error : Option MCPError
  deriving Repr, DecidableEq

/-- Outcome of `JSON.parse` on inbound raw text: a JSON value that is not an
object (or `null`), or a decoded object. -/
inductive Decoded where
  | scalar
  | obj (m : MCPMessage)
  deriving Repr, DecidableEq

/-- Inbound wire event: the outcome of `JSON.parse` on the raw text
(`Except.error` when the text is not well-formed JSON). -/
abbrev InMsg := Except String Decoded

/-- `SSEConnection` from src/types/mcp.ts (the opaque `response` transport
handle is modelled by the write oracle, see `Downstream`). -/
structure SSEConnection where
  id : String
  clientInfo : Option MCPClientInfo
  capabilities : Option MCPClientCapabilities
  authenticated : Bool
  lastActivity : Nat
  deriving Repr, DecidableEq

/-- The session registry: the handler's `connections: Map<string, SSEConnection>`,
as an insertion-ordered association list. -/
abbrev Registry := List (String × SSEConnection)

/-- `Map.get`. -/
def mapGet : Registry → String → Option SSEConnection
  | [], _ => none
  | (k, c) :: rest, k' => if k = k' then some c else mapGet rest k'

/-- In-place mutation of the connection object stored under a key (a no-op when
the key is absent, matching mutation of an object already evicted from the map). -/
def mapUpdate : Registry → String → (SSEConnection → SSEConnection) → Registry
  | [], _, _ => []
  | (k, c) :: rest, k', f =>
      if k = k' then (k, f c) :: mapUpdate rest k' f else (k, c) :: mapUpdate rest k' f

/-- `Map.delete`. -/
def mapDelete : Registry → String → Registry
  | [], _ => []
  | (k, c) :: rest, k' => if k = k' then mapDelete rest k' else (k, c) :: mapDelete rest k'

/-- `Map.set`: replaces in place when the key exists, appends otherwise. -/
def mapSet (st : Registry) (k : String) (c : SSEConnection) : Registry :=
  if k ∈ st.map Prod.fst then mapUpdate st k (fun _ => c) else st ++ [(k, c)]

/-- The `MCPErrorCode` enum from src/types/mcp.ts (stable integers). -/
def PARSE_ERROR : Int := -32700

def INVALID_REQUEST : Int := -32600

def METHOD_NOT_FOUND : Int := -32601

def INVALID_PARAMS : Int := -32602

def INTERNAL_ERROR : Int := -32603

def INVALID_TOOL : Int := -32000

def INVALID_RESOURCE : Int := -32001

def INVALID_PROMPT : Int := -32002

def RESOURCE_NOT_FOUND : Int := -32003

def TOOL_EXECUTION_ERROR : Int := -32004

def AUTHENTICATION_ERROR : Int := -32005

def AUTHORIZATION_ERROR : Int := -32006

def RATE_LIMITED : Int := -32007

def TIMEOUT_ERROR : Int := -32008

/-- The `config.mcp` section consumed by the handler. -/
structure MCPConfig where
  serverName : String
  serverVersion : String
  protocolVersion : String
  maxConnections : Nat
  connectionTimeout : Nat
  heartbeatInterval : Nat
  deriving Repr, DecidableEq

/-- Oracles for the handler's external collaborators:
`validateToken` is the outcome of `CanvasAPIClient.validateToken()` for a
given access token (the client method performs a network call and returns a
boolean, swallowing its own errors); `canvasCall` is the outcome of the Canvas
client call made inside `CanvasToolRegistry.executeTool` for a given tool name
and argument bag (`Except.ok` carries the `JSON.stringify`-ed response,
`Except.error` the thrown error's message); `writeOk` tells whether
`connection.response.write` succeeds for a given connection id. -/
structure Downstream where
  validateToken : String → Bool
  canvasCall : String → ToolArguments → Except String String
  writeOk : String → Bool

/-- Per-event context: configuration, collaborator oracles and the current
wall-clock instant (`new Date()`), as an abstract tick count. -/
structure Ctx where
  cfg : MCPConfig
  ds : Downstream
  now : Nat

/-- `MCPTextContent`: a `{type: 'text', text}` content block (the only content
shape the handler and catalog ever construct). -/
structure MCPTextContent where
  text : String
  deriving Repr, DecidableEq

/-- `MCPToolResult` from src/types/mcp.ts (`isError` is always set explicitly
on every path that builds one). -/
structure MCPToolResult where
  content : List MCPTextContent
  isError : Bool
  deriving Repr, DecidableEq

/-- `MCPPromptMessage` from src/types/mcp.ts. -/
structure MCPPromptMessage where
  role : String
  content : List MCPTextContent
  deriving Repr, DecidableEq

/-- The four capability flags the server advertises (flattened from the nested
capability interfaces; these are the only flags the handler sets). -/
structure MCPServerCapabilities where
  toolsListChanged : Bool
  resourcesSubscribe : Bool
  resourcesListChanged : Bool
  promptsListChanged : Bool
  deriving Repr, DecidableEq

/-- `MCPServerInfo` from src/types/mcp.ts. -/
structure MCPServerInfo where
  name : String
  version : String
  protocolVersion : String
  capabilities : MCPServerCapabilities
  deriving Repr, DecidableEq

/-- `MCPInitializeResult` from src/types/mcp.ts. -/
structure MCPInitializeResult where
  protocolVersion : String
  capabilities : MCPServerCapabilities
  serverInfo : MCPServerInfo
  deriving Repr, DecidableEq

/-- The result payloads the dispatcher can place in an outbound response.
Tool/prompt listings are carried by name: their static schema/description
records are never read by the dispatcher. -/
inductive ResultPayload where
  | initResult (r : MCPInitializeResult)
  | pingResult (timestamp : Nat)
  | toolsList (names : List String)
  | toolResult (r : MCPToolResult)
  | resourcesList (uris : List String)
  | promptsList (names : List String)
  | promptMessages (messages : List MCPPromptMessage)
  deriving Repr, DecidableEq

/-- An outbound `MCPResponse`: `id` is `none` when the source writes
`request.id!` on a request that carried no id (the field stays `undefined`). -/
structure MCPResponse where
  id : Option MCPId
  result : Option ResultPayload
  error : Option MCPError
  deriving Repr, DecidableEq

/-- An outbound envelope: a notification (carried by method name) or a response. -/
inductive OutMessage where
  | notif (method : String)
  | response (r : MCPResponse)
  deriving Repr, DecidableEq

/-- Observable effects of a handler step on the outside world. -/
inductive OutEvent where
  | sse (connId : String) (msg : OutMessage)
  | httpReject
  | closeTransport (connId : String)
  deriving Repr, DecidableEq

/-- The 17 tool names registered by `CanvasToolRegistry.initializeTools`;
they coincide with the cases of the `switch` in `executeTool`. -/
def knownTools : List String :=
  ["get_courses", "get_course", "create_course", "update_course",
   "get_assignments", "get_assignment", "create_assignment", "update_assignment",
   "get_current_user", "get_user", "get_enrollments", "enroll_user",
   "get_submissions", "get_submission", "grade_submission", "get_files", "get_file"]

/-- The 3 prompt names registered by `CanvasToolRegistry.initializePrompts`;
they coincide with the cases of the `switch` in `getPrompt`, so the
"Prompt generation not implemented" default is unreachable. -/
def knownPrompts : List String :=
  ["course_overview", "assignment_analysis", "student_progress"]

/-- `CanvasToolRegistry.executeTool`: throws (`Except.error`) for a name absent
from the tool map — this happens before its internal `try` block; for a known
tool the Canvas client call runs inside the `try`, whose `catch` converts a
downstream failure into a result flagged `isError := true`. -/
def executeTool (ds : Downstream) (toolName : String) (args : ToolArguments) :
    Except String MCPToolResult :=
  if toolName ∈ knownTools then
    match ds.canvasCall toolName args with
    | .ok serialized => .ok { content := [{ text := serialized }], isError := false }
    | .error e =>
        .ok { content := [{ text := "Error executing " ++ toolName ++ ": " ++ e }],
              isError := true }
  else
    .error ("Tool not found: " ++ toolName)

/-- `CanvasToolRegistry.getPrompt`: throws (`Except.error`) for a name absent
from the prompt map, and otherwise builds the per-prompt message pair. -/
def getPrompt (promptName : String) (args : ToolArguments) :
    Except String (List MCPPromptMessage) :=
  if promptName = "course_overview" then
    let userText := "Please provide a comprehensive overview of course ID " ++ args.interp "course_id" ++ ". " ++ (if args.truth "include_assignments" then "Include assignment information." else "") ++ " " ++ (if args.truth "include_enrollments" then "Include enrollment statistics." else "")
    .ok [{ role := "system", content := [{ text := "You are a Canvas LMS assistant. Generate a comprehensive course overview based on the provided course data." }] },
         { role := "user", content := [{ text := userText }] }]
  else if promptName = "assignment_analysis" then
    let userText := "Please analyze the performance of assignment ID " ++ args.interp "assignment_id" ++ " in course ID " ++ args.interp "course_id" ++ ". Provide insights on student performance, grade distribution, and suggestions for improvement."
    .ok [{ role := "system", content := [{ text := "You are a Canvas LMS assistant. Analyze assignment performance and provide educational insights." }] },
         { role := "user", content := [{ text := userText }] }]
  else if promptName = "student_progress" then
    let userText := "Please generate a progress report for student ID " ++ args.interp "user_id" ++ " in course ID " ++ args.interp "course_id" ++ ". Include assignment completion, grade trends, and recommendations."
    .ok [{ role := "system", content := [{ text := "You are a Canvas LMS assistant. Generate student progress reports with actionable insights." }] },
         { role := "user", content := [{ text := userText }] }]
  else
    .error ("Prompt not found: " ++ promptName)

/-- `connection.lastActivity = new Date()`. -/
def touch (t : Nat) (c : SSEConnection) : SSEConnection := { c with lastActivity := t }

/-- `MCPHandler.removeConnection`: idempotent; ends the transport and deletes
the registry entry when present. -/
def removeConnection (st : Registry) (k : String) : Registry × List OutEvent :=
  match mapGet st k with
  | none => (st, [])
  | some _ => (mapDelete st k, [.closeTransport k])

/-- `MCPHandler.sendMessage`: frames the envelope and writes it to the
connection's transport; on success the connection's `lastActivity` is
refreshed, on a write failure the connection is removed. -/
def sendMessage (ctx : Ctx) (st : Registry) (k : String) (msg : OutMessage) :
    Registry × List OutEvent :=
  if ctx.ds.writeOk k then
    (mapUpdate st k (touch ctx.now), [.sse k msg])
  else
    removeConnection st k

/-- `MCPHandler.sendResponse`. -/
def sendResponse (ctx : Ctx) (st : Registry) (k : String) (r : MCPResponse) :
    Registry × List OutEvent :=
  sendMessage ctx st k (.response r)

/-- The id placed on an outbound error response: `id || 'unknown'` in the
source, i.e. the sentinel string whenever the request id is absent or falsy. -/
def errorId : Option MCPId → MCPId
  | none => .str "unknown"
  | some i => if i.isFalsy then .str "unknown" else i

/-- `MCPHandler.sendError`. -/
def sendError (ctx : Ctx) (st : Registry) (k : String) (id : Option MCPId)
    (code : Int) (msg : String) : Registry × List OutEvent :=
  sendResponse ctx st k
    { id := some (errorId id), result := none, error := some { code := code, message := msg } }

/-- `MCPHandler.isValidMCPMessage` on a decoded JSON object. -/
def isValidMCPMessage (m : MCPMessage) : Bool :=
  m.jsonrpc == "2.0" && (strTruthy m.method || m.result.isSome || m.error.isSome)

/-- `MCPHandler.isValidMCPMessage` on an arbitrary decoded JSON value
(`message && typeof message === 'object'` rejects non-objects and `null`). -/
def isValidDecoded : Decoded → Bool
  | .scalar => false
  | .obj m => isValidMCPMessage m

/-- The capability set the server advertises in `handleInitialize`. -/
def serverCapabilities : MCPServerCapabilities :=
  { toolsListChanged := true, resourcesSubscribe := false,
    resourcesListChanged := true, promptsListChanged := true }

/-- The `MCPInitializeResult` built by `handleInitialize`. -/
def initializeResult (cfg : MCPConfig) : MCPInitializeResult :=
  { protocolVersion := cfg.protocolVersion,
    capabilities := serverCapabilities,
    serverInfo := { name := cfg.serverName, version := cfg.serverVersion,
                    protocolVersion := cfg.protocolVersion,
                    capabilities := serverCapabilities } }

/-- Result of one handler step: the updated registry, the observable outbound
events in order, and the tool names passed to the Operation Catalog's invoke
entry point (`toolRegistry.executeTool`) during the step. -/
structure StepOut where
  reg : Registry
  events : List OutEvent
  calls : List String
  deriving Repr, DecidableEq

/-- Lift a catalog-free step. -/
def out0 (p : Registry × List OutEvent) : StepOut := ⟨p.1, p.2, []⟩

/-- `MCPHandler.handleInitialize` (named with a `Req` suffix here): validates
the params, records peer identity and capabilities on the session, and replies
with the server identity; it does not change `authenticated`. -/
def handleInitializeReq (ctx : Ctx) (st : Registry) (c : SSEConnection) (req : MCPMessage) :
    Registry × List OutEvent :=
  match req.params with
  | none => sendError ctx st c.id req.id INVALID_PARAMS "Missing required initialization parameters"
  | some p =>
    if strTruthy p.protocolVersion && p.clientInfo.isSome then
      let st1 := mapUpdate st c.id
        (fun cc => { cc with clientInfo := p.clientInfo, capabilities := p.capabilities })
      sendResponse ctx st1 c.id
        { id := req.id, result := some (.initResult (initializeResult ctx.cfg)), error := none }
    else
      sendError ctx st c.id req.id INVALID_PARAMS "Missing required initialization parameters"

/-- `MCPHandler.handleInitialized`: unconditionally flips `authenticated` to
`true`; sends nothing. -/
def handleInitialized (st : Registry) (c : SSEConnection) : Registry × List OutEvent :=
  (mapUpdate st c.id (fun cc => { cc with authenticated := true }), [])

/-- `MCPHandler.handlePing`: replies with a timestamp, in any state. -/
def handlePing (ctx : Ctx) (st : Registry) (c : SSEConnection) (req : MCPMessage) :
    Registry × List OutEvent :=
  sendResponse ctx st c.id { id := req.id, result := some (.pingResult ctx.now), error := none }

/-- `MCPHandler.handleToolsList`. -/
def handleToolsList (ctx : Ctx) (st : Registry) (c : SSEConnection) (req : MCPMessage) :
    Registry × List OutEvent :=
  if c.authenticated = false then
    sendError ctx st c.id req.id AUTHENTICATION_ERROR "Connection not authenticated"
  else
    sendResponse ctx st c.id { id := req.id, result := some (.toolsList knownTools), error := none }

/-- `MCPHandler.handleToolsCall`: auth guard, name check, credential check
(`params.arguments?.access_token`), downstream credential validation, and only
then the catalog invocation; a thrown catalog error is converted into a
successful envelope whose result is flagged `isError := true`. -/
def handleToolsCall (ctx : Ctx) (st : Registry) (c : SSEConnection) (req : MCPMessage) :
    StepOut :=
  if c.authenticated = false then
    out0 (sendError ctx st c.id req.id AUTHENTICATION_ERROR "Connection not authenticated")
  else
    match req.params with
    | none => out0 (sendError ctx st c.id req.id INVALID_PARAMS "Missing tool name")
    | some p =>
      if strTruthy p.name = false then
        out0 (sendError ctx st c.id req.id INVALID_PARAMS "Missing tool name")
      else
        match p.arguments with
        | none =>
            out0 (sendError ctx st c.id req.id AUTHENTICATION_ERROR "Canvas access token required")
        | some args =>
          if strTruthy args.access_token = false then
            out0 (sendError ctx st c.id req.id AUTHENTICATION_ERROR "Canvas access token required")
          else if ctx.ds.validateToken (args.access_token.getD "") = false then
            out0 (sendError ctx st c.id req.id AUTHENTICATION_ERROR "Invalid Canvas access token")
          else
            match executeTool ctx.ds (p.name.getD "") args with
            | .ok result =>
                ⟨(sendResponse ctx st c.id
                    { id := req.id, result := some (.toolResult result), error := none }).1,
                 (sendResponse ctx st c.id
                    { id := req.id, result := some (.toolResult result), error := none }).2,
                 [p.name.getD ""]⟩
            | .error e =>
                ⟨(sendResponse ctx st c.id
                    { id := req.id,
                      result := some (.toolResult
                        { content := [{ text := "Error executing tool: " ++ e }],
                          isError := true }),
                      error := none }).1,
                 (sendResponse ctx st c.id
                    { id := req.id,
                      result := some (.toolResult
                        { content := [{ text := "Error executing tool: " ++ e }],
                          isError := true }),
                      error := none }).2,
                 [p.name.getD ""]⟩

/-- `MCPHandler.handleResourcesList`: placeholder returning an empty list. -/
def handleResourcesList (ctx : Ctx) (st : Registry) (c : SSEConnection) (req : MCPMessage) :
    Registry × List OutEvent :=
  if c.authenticated = false then
    sendError ctx st c.id req.id AUTHENTICATION_ERROR "Connection not authenticated"
  else
    sendResponse ctx st c.id { id := req.id, result := some (.resourcesList []), error := none }

/-- `MCPHandler.handleResourcesRead`: placeholder always reporting not-found. -/
def handleResourcesRead (ctx : Ctx) (st : Registry) (c : SSEConnection) (req : MCPMessage) :
    Registry × List OutEvent :=
  if c.authenticated = false then
    sendError ctx st c.id req.id AUTHENTICATION_ERROR "Connection not authenticated"
  else
    sendError ctx st c.id req.id RESOURCE_NOT_FOUND "Resource not found"

/-- `MCPHandler.handlePromptsList`. -/
def handlePromptsList (ctx : Ctx) (st : Registry) (c : SSEConnection) (req : MCPMessage) :
    Registry × List OutEvent :=
  if c.authenticated = false then
    sendError ctx st c.id req.id AUTHENTICATION_ERROR "Connection not authenticated"
  else
    sendResponse ctx st c.id { id := req.id, result := some (.promptsList knownPrompts), error := none }

/-- `MCPHandler.handlePromptsGet`: a thrown catalog error (unknown prompt name)
is converted into an envelope-level `INVALID_PROMPT` error. -/
def handlePromptsGet (ctx : Ctx) (st : Registry) (c : SSEConnection) (req : MCPMessage) :
    Registry × List OutEvent :=
  if c.authenticated = false then
    sendError ctx st c.id req.id AUTHENTICATION_ERROR "Connection not authenticated"
  else
    match req.params with
    | none => sendError ctx st c.id req.id INVALID_PARAMS "Missing prompt name"
    | some p =>
      if strTruthy p.name = false then
        sendError ctx st c.id req.id INVALID_PARAMS "Missing prompt name"
      else
        match getPrompt (p.name.getD "") (p.arguments.getD { access_token := none, fields := [] }) with
        | .ok messages =>
            sendResponse ctx st c.id
              { id := req.id, result := some (.promptMessages messages), error := none }
        | .error _ =>
            sendError ctx st c.id req.id INVALID_PROMPT ("Prompt not found: " ++ p.name.getD "")

/-- `MCPHandler.handleRequest`: the method-name switch.  No handler in the
model can raise, so the surrounding `try`/`catch` (whose `catch` replies
`INTERNAL_ERROR`) has no reachable failure path. -/
def handleRequest (ctx : Ctx) (st : Registry) (c : SSEConnection) (req : MCPMessage) :
    StepOut :=
  match req.method.getD "" with
  | "initialize" => out0 (handleInitializeReq ctx st c req)
  | "initialized" => out0 (handleInitialized st c)
  | "ping" => out0 (handlePing ctx st c req)
  | "tools/list" => out0 (handleToolsList ctx st c req)
  | "tools/call" => handleToolsCall ctx st c req
  | "resources/list" => out0 (handleResourcesList ctx st c req)
  | "resources/read" => out0 (handleResourcesRead ctx st c req)
  | "prompts/list" => out0 (handlePromptsList ctx st c req)
  | "prompts/get" => out0 (handlePromptsGet ctx st c req)
  | m => out0 (sendError ctx st c.id req.id METHOD_NOT_FOUND ("Method not found: " ++ m))

/-- `MCPHandler.handleMessage`: entry point for inbound raw text on a known
connection; refreshes `lastActivity`, then parse / validity / dispatch. -/
def handleMessage (ctx : Ctx) (st : Registry) (connId : String) (msg : InMsg) : StepOut :=
  match mapGet st connId with
  | none => ⟨st, [], []⟩
  | some c0 =>
    let st1 := mapUpdate st connId (touch ctx.now)
    match msg with
    | .error _ => out0 (sendError ctx st1 connId none PARSE_ERROR "Failed to parse JSON message")
    | .ok .scalar => out0 (sendError ctx st1 connId none INVALID_REQUEST "Invalid MCP message format")
    | .ok (.obj m) =>
      if isValidMCPMessage m then
        if strTruthy m.method then
          handleRequest ctx st1 (touch ctx.now c0) m
        else
          ⟨st1, [], []⟩
      else
        out0 (sendError ctx st1 connId m.id INVALID_REQUEST "Invalid MCP message format")

/-- `MCPHandler.addConnection`: capacity check, session creation, SSE setup
and the welcome notification. -/
def addConnection (ctx : Ctx) (st : Registry) (connId : String) : Registry × List OutEvent :=
  if st.length ≥ ctx.cfg.maxConnections then
    (st, [.httpReject])
  else
    let c : SSEConnection :=
      { id := connId, clientInfo := none, capabilities := none,
        authenticated := false, lastActivity := ctx.now }
    sendMessage ctx (mapSet st connId c) connId (.notif "notifications/message")

/-- Staleness test of `cleanupStaleConnections`: elapsed time strictly above
the configured timeout. -/
def isStale (ctx : Ctx) (c : SSEConnection) : Bool :=
  decide (ctx.cfg.connectionTimeout < ctx.now - c.lastActivity)

/-- `MCPHandler.cleanupStaleConnections`: evicts every stale session. -/
def cleanupStaleConnections (ctx : Ctx) (st : Registry) : Registry × List OutEvent :=
  (st.filter (fun p => !(isStale ctx p.2)),
   (st.filter (fun p => isStale ctx p.2)).map (fun p => .closeTransport p.1))

/-- The keep-alive notification built by `sendHeartbeat`. -/
def heartbeatMessage : OutMessage := .notif "notifications/ping"

/-- One push of the keep-alive loop body in `sendHeartbeat`. -/
def hbStep (ctx : Ctx) (acc : Registry × List OutEvent) (k : String) :
    Registry × List OutEvent :=
  ((sendMessage ctx acc.1 k heartbeatMessage).1,
   acc.2 ++ (sendMessage ctx acc.1 k heartbeatMessage).2)

/-- `MCPHandler.sendHeartbeat`: pushes the keep-alive to every connection. -/
def sendHeartbeat (ctx : Ctx) (st : Registry) : Registry × List OutEvent :=
  (st.map Prod.fst).foldl (hbStep ctx) (st, [])

/-- One Liveness Sweeper tick (the `setInterval` body of `startHeartbeat`):
staleness eviction followed by the keep-alive push. -/
def heartbeatTick (ctx : Ctx) (st : Registry) : Registry × List OutEvent :=
  let r1 := cleanupStaleConnections ctx st
  let r2 := sendHeartbeat ctx r1.1
  (r2.1, r1.2 ++ r2.2)

/-- A run of inbound wire events on one connection: each event carries its
arrival instant and the outcome of `JSON.parse` on its raw text. -/
def runMessages (cfg : MCPConfig) (ds : Downstream) (st : Registry) (connId : String) :
    List (Nat × InMsg) → Registry
  | [] => st
  | (t, msg) :: rest =>
      runMessages cfg ds (handleMessage ⟨cfg, ds, t⟩ st connId msg).reg connId rest

/-- An inbound wire event that reaches the `initialized` branch of the
dispatcher: well-formed JSON object, valid envelope, method `initialized`. -/
def isInitializedMsg : InMsg → Bool
  | .ok (.obj m) => isValidMCPMessage m && m.method == some "initialized"
  | _ => false

/-- The recognized methods that sit behind the `Ready` guard. -/
def gatedMethods : List String :=
  ["tools/list", "tools/call", "resources/list", "resources/read",
   "prompts/list", "prompts/get"]

/-- Preservation of the per-session handshake identity between registries:
every surviving session keeps its `authenticated` flag and its `id`. -/
def connPres (st st' : Registry) : Prop :=
  ∀ k c', mapGet st' k = some c' →
    ∃ c, mapGet st k = some c ∧ c'.authenticated = c.authenticated ∧ c'.id = c.id

/-- Concrete configuration for witnesses and counterexamples. -/
def cfg0 : MCPConfig :=
  { serverName := "canvas-lms-mcp-server", serverVersion := "1.0.0",
    protocolVersion := "2024-11-05", maxConnections := 2,
    connectionTimeout := 10, heartbeatInterval := 3 }

/-- Collaborator oracles where every downstream interaction succeeds. -/
def ds0 : Downstream :=
  { validateToken := fun _ => true, canvasCall := fun _ _ => Except.ok "{}",
    writeOk := fun _ => true }

/-- Collaborator oracles where the downstream credential check rejects. -/
def dsBad : Downstream :=
  { validateToken := fun _ => false, canvasCall := fun _ _ => Except.ok "{}",
    writeOk := fun _ => true }

/-- Collaborator oracles where the Canvas call inside `executeTool` throws. -/
def dsFail : Downstream :=
  { validateToken := fun _ => true,
    canvasCall := fun _ _ => Except.error "Network error", writeOk := fun _ => true }

/-- Concrete step context at instant 5 with all-success oracles. -/
def ctx0 : Ctx := { cfg := cfg0, ds := ds0, now := 5 }

/-- A freshly admitted (unauthenticated) session. -/
def c1 : SSEConnection :=
  { id := "c1", clientInfo := none, capabilities := none,
    authenticated := false, lastActivity := 0 }

/-- A registry holding only the fresh session `c1`. -/
def reg1 : Registry := [("c1", c1)]

/-- A session that completed the handshake. -/
def readyConn : SSEConnection :=
  { id := "c1", clientInfo := none, capabilities := none,
    authenticated := true, lastActivity := 0 }

/-- A registry holding only the ready session. -/
def regReady : Registry := [("c1", readyConn)]

/-- An empty argument bag. -/
def emptyArgs : ToolArguments := { access_token := none, fields := [] }

/-- A bare `initialized` notification. -/
def initializedMsg : MCPMessage :=
  { jsonrpc := "2.0", id := none, method := some "initialized",
    params := none, result := none, error := none }

/-- A request with an unrecognized method name. -/
def bogusMsg : MCPMessage :=
  { jsonrpc := "2.0", id := some (.num 7), method := some "bogus",
    params := none, result := none, error := none }

/-- A `tools/list` request. -/
def toolsListMsg : MCPMessage :=
  { jsonrpc := "2.0", id := some (.num 1), method := some "tools/list",
    params := none, result := none, error := none }

/-- A `tools/call` request that carries no credential in its argument bag. -/
def toolsCallNoTokenMsg : MCPMessage :=
  { jsonrpc := "2.0", id := some (.num 2), method := some "tools/call",
    params := some { protocolVersion := none, capabilities := none, clientInfo := none,
                     name := some "get_courses", arguments := some emptyArgs },
    result := none, error := none }

/-- A `tools/call` request naming a tool absent from the catalog, with a credential. -/
def toolsCallUnknownToolMsg : MCPMessage :=
  { jsonrpc := "2.0", id := some (.num 3), method := some "tools/call",
    params := some { protocolVersion := none, capabilities := none, clientInfo := none,
                     name := some "no_such_tool",
                     arguments := some { access_token := some "tok", fields := [] } },
    result := none, error := none }

/-- A `prompts/get` request for a name absent from the catalog. -/
def promptsGetUnknownMsg : MCPMessage :=
  { jsonrpc := "2.0", id := some (.num 4), method := some "prompts/get",
    params := some { protocolVersion := none, capabilities := none, clientInfo := none,
                     name := some "no_such_prompt", arguments := none },
    result := none, error := none }

theorem mapGet_mapUpdate (st : Registry) (k k' : String) (f : SSEConnection → SSEConnection) :
    mapGet (mapUpdate st k f) k' = if k = k' then (mapGet st k').map f else mapGet st k' := by
  induction st with
  | nil => simp [mapGet, mapUpdate]
  | cons p rest ih =>
    obtain ⟨kk, c⟩ := p
    simp only [mapUpdate]
    by_cases h1 : kk = k
    · subst h1
      by_cases h2 : kk = k'
      · subst h2; simp [mapGet]
      · simp [mapGet, h2, ih]
    · by_cases h2 : kk = k'
      · subst h2
        have hne : ¬ k = kk := fun h => h1 h.symm
        simp [mapGet, hne, h1]
      · simp [mapGet, h1, h2, ih]

theorem mapGet_mapDelete (st : Registry) (k k' : String) :
    mapGet (mapDelete st k) k' = if k = k' then none else mapGet st k' := by
  induction st with
  | nil => simp [mapGet, mapDelete]
  | cons p rest ih =>
    obtain ⟨kk, c⟩ := p
    simp only [mapDelete]
    by_cases h1 : kk = k
    · subst h1
      by_cases h2 : kk = k'
      · subst h2; simp [ih]
      · simp [mapGet, h2, ih]
    · by_cases h2 : kk = k'
      · subst h2
        have hne : ¬ k = kk := fun h => h1 h.symm
        simp [mapGet, hne, h1]
      · simp [mapGet, h1, h2, ih]

theorem mapGet_eq_none_iff (st : Registry) (k : String) :
    mapGet st k = none ↔ k ∉ st.map Prod.fst := by
  induction st with
  | nil => simp [mapGet]
  | cons p rest ih =>
    obtain ⟨kk, c⟩ := p
    by_cases h : kk = k
    · subst h; simp [mapGet]
    · have hne : k ≠ kk := fun hh => h hh.symm
      simp only [mapGet, h, if_false, List.map_cons, List.mem_cons, not_or]
      rw [ih]
      exact ⟨fun hk => ⟨hne, hk⟩, fun hp => hp.2⟩

theorem length_mapSet_of_fresh (st : Registry) (k : String) (c : SSEConnection)
    (h : mapGet st k = none) : (mapSet st k c).length = st.length + 1 := by
  rw [mapGet_eq_none_iff] at h
  simp [mapSet, h]

theorem mapGet_append_fresh (st : Registry) (k : String) (c : SSEConnection)
    (h : mapGet st k = none) : mapGet (st ++ [(k, c)]) k = some c := by
  induction st with
  | nil => simp [mapGet]
  | cons p rest ih =>
    obtain ⟨kk, cc⟩ := p
    by_cases hk : kk = k
    · simp [mapGet, hk] at h
    · simp [mapGet, hk] at h ⊢
      exact ih h

theorem mapGet_mapSet_self (st : Registry) (k : String) (c : SSEConnection)
    (h : mapGet st k = none) : mapGet (mapSet st k c) k = some c := by
  have h' := (mapGet_eq_none_iff st k).mp h
  rw [mapSet, if_neg h']
  exact mapGet_append_fresh st k c h

theorem length_mapUpdate (st : Registry) (k : String) (f : SSEConnection → SSEConnection) :
    (mapUpdate st k f).length = st.length := by
  induction st with
  | nil => rfl
  | cons p rest ih =>
    obtain ⟨kk, c⟩ := p
    by_cases h : kk = k <;> simp [mapUpdate, h, ih]

theorem mapUpdate_mapUpdate (st : Registry) (k : String)
    (f g : SSEConnection → SSEConnection) :
    mapUpdate (mapUpdate st k f) k g = mapUpdate st k (fun c => g (f c)) := by
  induction st with
  | nil => rfl
  | cons p rest ih =>
    obtain ⟨kk, c⟩ := p
    by_cases h : kk = k <;> simp [mapUpdate, h, ih]

theorem connPres_refl (st : Registry) : connPres st st :=
  fun _ c' h => ⟨c', h, rfl, rfl⟩

theorem connPres_trans {a b c : Registry} (h1 : connPres a b) (h2 : connPres b c) :
    connPres a c := by
  intro k c' h
  obtain ⟨cb, hb, hab, hib⟩ := h2 k c' h
  obtain ⟨ca, ha, haa, hia⟩ := h1 k cb hb
  exact ⟨ca, ha, hab.trans haa, hib.trans hia⟩

theorem connPres_mapUpdate (st : Registry) (k : String) (f : SSEConnection → SSEConnection)
    (hf : ∀ c, (f c).authenticated = c.authenticated ∧ (f c).id = c.id) :
    connPres st (mapUpdate st k f) := by
  intro k' c' h
  rw [mapGet_mapUpdate] at h
  by_cases hk : k = k'
  · rw [if_pos hk] at h
    cases hmg : mapGet st k' with
    | none => rw [hmg] at h; simp at h
    | some c =>
      rw [hmg] at h
      simp only [Option.map_some', Option.some.injEq] at h
      exact ⟨c, rfl, by rw [← h]; exact (hf c).1, by rw [← h]; exact (hf c).2⟩
  · rw [if_neg hk] at h
    exact ⟨c', h, rfl, rfl⟩

theorem connPres_mapDelete (st : Registry) (k : String) :
    connPres st (mapDelete st k) := by
  intro k' c' h
  rw [mapGet_mapDelete] at h
  by_cases hk : k = k'
  · rw [if_pos hk] at h; cases h
  · rw [if_neg hk] at h; exact ⟨c', h, rfl, rfl⟩

theorem connPres_removeConnection (st : Registry) (k : String) :
    connPres st (removeConnection st k).1 := by
  unfold removeConnection
  cases mapGet st k with
  | none => exact connPres_refl st
  | some _ => exact connPres_mapDelete st k

theorem connPres_sendMessage (ctx : Ctx) (st : Registry) (k : String) (msg : OutMessage) :
    connPres st (sendMessage ctx st k msg).1 := by
  unfold sendMessage
  by_cases hw : ctx.ds.writeOk k = true
  · simp only [hw, if_true]
    exact connPres_mapUpdate st k (touch ctx.now) (fun c => ⟨rfl, rfl⟩)
  · rw [if_neg hw]
    exact connPres_removeConnection st k

theorem connPres_sendResponse (ctx : Ctx) (st : Registry) (k : String) (r : MCPResponse) :
    connPres st (sendResponse ctx st k r).1 :=
  connPres_sendMessage ctx st k (.response r)

theorem connPres_sendError (ctx : Ctx) (st : Registry) (k : String) (id : Option MCPId)
    (code : Int) (msg : String) : connPres st (sendError ctx st k id code msg).1 :=
  connPres_sendMessage ctx st k _

theorem connPres_handleInitializeReq (ctx : Ctx) (st : Registry) (c : SSEConnection)
    (req : MCPMessage) : connPres st (handleInitializeReq ctx st c req).1 := by
  unfold handleInitializeReq
  split
  · exact connPres_sendError ctx st c.id req.id INVALID_PARAMS _
  · rename_i p heq
    split
    · exact connPres_trans
        (connPres_mapUpdate st c.id
          (fun cc => { cc with clientInfo := p.clientInfo, capabilities := p.capabilities })
          (fun cc => ⟨rfl, rfl⟩))
        (connPres_sendResponse ctx _ c.id _)
    · exact connPres_sendError ctx st c.id req.id INVALID_PARAMS _

theorem connPres_handlePing (ctx : Ctx) (st : Registry) (c : SSEConnection)
    (req : MCPMessage) : connPres st (handlePing ctx st c req).1 :=
  connPres_sendResponse ctx st c.id _

theorem connPres_handleToolsList (ctx : Ctx) (st : Registry) (c : SSEConnection)
    (req : MCPMessage) : connPres st (handleToolsList ctx st c req).1 := by
  unfold handleToolsList
  by_cases h : c.authenticated = false
  · simp only [h, if_true]
    exact connPres_sendError ctx st c.id req.id AUTHENTICATION_ERROR _
  · simp only [h, if_false]
    exact connPres_sendResponse ctx st c.id _

theorem connPres_handleToolsCall (ctx : Ctx) (st : Registry) (c : SSEConnection)
    (req : MCPMessage) : connPres st (handleToolsCall ctx st c req).reg := by
  unfold handleToolsCall out0
  split
  · exact connPres_sendError ctx st c.id req.id AUTHENTICATION_ERROR _
  · split
    · exact connPres_sendError ctx st c.id req.id INVALID_PARAMS _
    · split
      · exact connPres_sendError ctx st c.id req.id INVALID_PARAMS _
      · split
        · exact connPres_sendError ctx st c.id req.id AUTHENTICATION_ERROR _
        · split
          · exact connPres_sendError ctx st c.id req.id AUTHENTICATION_ERROR _
          · split
            · exact connPres_sendError ctx st c.id req.id AUTHENTICATION_ERROR _
            · split
              · exact connPres_sendResponse ctx st c.id _
              · exact connPres_sendResponse ctx st c.id _

theorem connPres_handleResourcesList (ctx : Ctx) (st : Registry) (c : SSEConnection)
    (req : MCPMessage) : connPres st (handleResourcesList ctx st c req).1 := by
  unfold handleResourcesList
  split
  · exact connPres_sendError ctx st c.id req.id AUTHENTICATION_ERROR _
  · exact connPres_sendResponse ctx st c.id _

theorem connPres_handleResourcesRead (ctx : Ctx) (st : Registry) (c : SSEConnection)
    (req : MCPMessage) : connPres st (handleResourcesRead ctx st c req).1 := by
  unfold handleResourcesRead
  split
  · exact connPres_sendError ctx st c.id req.id AUTHENTICATION_ERROR _
  · exact connPres_sendError ctx st c.id req.id RESOURCE_NOT_FOUND _

theorem connPres_handlePromptsList (ctx : Ctx) (st : Registry) (c : SSEConnection)
    (req : MCPMessage) : connPres st (handlePromptsList ctx st c req).1 := by
  unfold handlePromptsList
  split
  · exact connPres_sendError ctx st c.id req.id AUTHENTICATION_ERROR _
  · exact connPres_sendResponse ctx st c.id _

theorem connPres_handlePromptsGet (ctx : Ctx) (st : Registry) (c : SSEConnection)
    (req : MCPMessage) : connPres st (handlePromptsGet ctx st c req).1 := by
  unfold handlePromptsGet
  split
  · exact connPres_sendError ctx st c.id req.id AUTHENTICATION_ERROR _
  · split
    · exact connPres_sendError ctx st c.id req.id INVALID_PARAMS _
    · split
      · exact connPres_sendError ctx st c.id req.id INVALID_PARAMS _
      · split
        · exact connPres_sendResponse ctx st c.id _
        · exact connPres_sendError ctx st c.id req.id INVALID_PROMPT _

theorem connPres_handleRequest (ctx : Ctx) (st : Registry) (c : SSEConnection)
    (req : MCPMessage) (hm : req.method.getD "" ≠ "initialized") :
    connPres st (handleRequest ctx st c req).reg := by
  unfold handleRequest out0
  split
  · exact connPres_handleInitializeReq ctx st c req
  · exact absurd (by assumption) hm
  · exact connPres_handlePing ctx st c req
  · exact connPres_handleToolsList ctx st c req
  · exact connPres_handleToolsCall ctx st c req
  · exact connPres_handleResourcesList ctx st c req
  · exact connPres_handleResourcesRead ctx st c req
  · exact connPres_handlePromptsList ctx st c req
  · exact connPres_handlePromptsGet ctx st c req
  · exact connPres_sendError ctx st c.id req.id METHOD_NOT_FOUND _

theorem handleMessage_reg_of_none (ctx : Ctx) (st : Registry) (id : String) (msg : InMsg)
    (h : mapGet st id = none) : (handleMessage ctx st id msg).reg = st := by
  unfold handleMessage
  rw [h]

theorem connPres_handleMessage (ctx : Ctx) (st : Registry) (id : String) (msg : InMsg)
    (h : isInitializedMsg msg = false) : connPres st (handleMessage ctx st id msg).reg := by
  have htouch : connPres st (mapUpdate st id (touch ctx.now)) :=
    connPres_mapUpdate st id (touch ctx.now) (fun c => ⟨rfl, rfl⟩)
  unfold handleMessage
  cases hmg : mapGet st id with
  | none => exact connPres_refl st
  | some c0 =>
    cases msg with
    | error e =>
      exact connPres_trans htouch (connPres_sendError ctx _ id none PARSE_ERROR _)
    | ok d =>
      cases d with
      | scalar =>
        exact connPres_trans htouch (connPres_sendError ctx _ id none INVALID_REQUEST _)
      | obj m =>
        by_cases hv : isValidMCPMessage m = true
        · simp only [hv, if_true]
          by_cases hsm : strTruthy m.method = true
          · simp only [hsm, if_true]
            have hne : m.method.getD "" ≠ "initialized" := by
              intro hcontra
              cases hmm : m.method with
              | none => rw [hmm] at hsm; exact absurd hsm (by simp [strTruthy])
              | some s =>
                rw [hmm] at hcontra
                simp only [Option.getD_some] at hcontra
                subst hcontra
                simp [isInitializedMsg, hv, hmm] at h
            exact connPres_trans htouch
              (connPres_handleRequest ctx _ (touch ctx.now c0) m hne)
          · simp only [hsm, if_false, Bool.false_eq_true]
            exact htouch
        · simp only [hv, if_false, Bool.false_eq_true]
          exact connPres_trans htouch (connPres_sendError ctx _ id m.id INVALID_REQUEST _)

theorem auth_step (ctx : Ctx) (st : Registry) (id : String) (msg : InMsg) (c : SSEConnection)
    (hc : mapGet st id = some c) (hid : c.id = id) :
    ∀ c', mapGet (handleMessage ctx st id msg).reg id = some c' →
      c'.authenticated = (c.authenticated || isInitializedMsg msg) ∧ c'.id = id := by
  by_cases hinit : isInitializedMsg msg = true
  · obtain ⟨m, rfl, hv, hm⟩ : ∃ m, msg = Except.ok (Decoded.obj m) ∧
        isValidMCPMessage m = true ∧ m.method = some "initialized" := by
      cases msg with
      | error e => simp [isInitializedMsg] at hinit
      | ok d =>
        cases d with
        | scalar => simp [isInitializedMsg] at hinit
        | obj m =>
          simp only [isInitializedMsg, Bool.and_eq_true, beq_iff_eq] at hinit
          exact ⟨m, rfl, hinit.1, hinit.2⟩
    intro c' h'
    have hsm : strTruthy m.method = true := by rw [hm]; decide
    have hgd : m.method.getD "" = "initialized" := by rw [hm]; rfl
    simp only [handleMessage, hc] at h'
    simp only [hv, if_true, hsm] at h'
    simp only [handleRequest, hgd, out0, handleInitialized] at h'
    rw [show (touch ctx.now c).id = id from hid] at h'
    rw [mapUpdate_mapUpdate, mapGet_mapUpdate, if_pos rfl, hc] at h'
    simp only [Option.map_some', Option.some.injEq] at h'
    subst h'
    exact ⟨by simp [hinit], hid⟩
  · have h0 : isInitializedMsg msg = false := by simpa using hinit
    intro c' h'
    obtain ⟨c0, hc0, ha, hi⟩ := connPres_handleMessage ctx st id msg h0 id c' h'
    rw [hc] at hc0
    cases hc0
    rw [h0]
    exact ⟨by simp [ha], hi.trans hid⟩

theorem runMessages_of_none (cfg : MCPConfig) (ds : Downstream) (id : String) :
    ∀ (msgs : List (Nat × InMsg)) (st : Registry), mapGet st id = none →
      runMessages cfg ds st id msgs = st := by
  intro msgs
  induction msgs with
  | nil => intro st _; rfl
  | cons tm rest ih =>
    intro st h
    obtain ⟨t, m⟩ := tm
    rw [runMessages, handleMessage_reg_of_none ⟨cfg, ds, t⟩ st id m h]
    exact ih st h

theorem runMessages_auth (cfg : MCPConfig) (ds : Downstream) (id : String) :
    ∀ (msgs : List (Nat × InMsg)) (st : Registry) (c : SSEConnection),
      mapGet st id = some c → c.id = id →
      ∀ c', mapGet (runMessages cfg ds st id msgs) id = some c' →
        c'.authenticated = (c.authenticated || msgs.any (fun tm => isInitializedMsg tm.2)) ∧
        c'.id = id := by
  intro msgs
  induction msgs with
  | nil =>
    intro st c hc hid c' h'
    rw [runMessages] at h'
    rw [hc] at h'
    cases h'
    refine ⟨?_, hid⟩
    simp
  | cons tm rest ih =>
    intro st c hc hid c' h'
    obtain ⟨t, m⟩ := tm
    rw [runMessages] at h'
    cases hmg : mapGet (handleMessage ⟨cfg, ds, t⟩ st id m).reg id with
    | none =>
      rw [runMessages_of_none cfg ds id rest _ hmg] at h'
      rw [hmg] at h'
      cases h'
    | some c1 =>
      obtain ⟨ha1, hid1⟩ := auth_step ⟨cfg, ds, t⟩ st id m c hc hid c1 hmg
      obtain ⟨ha2, hid2⟩ := ih _ c1 hmg hid1 c' h'
      refine ⟨?_, hid2⟩
      rw [ha2, ha1, List.any_cons, Bool.or_assoc]

theorem touch_touch (t : Nat) (c : SSEConnection) : touch t (touch t c) = touch t c := rfl

theorem touch_id (t : Nat) (c : SSEConnection) : (touch t c).id = c.id := rfl

theorem touch_auth (t : Nat) (c : SSEConnection) :
    (touch t c).authenticated = c.authenticated := rfl

/-- Claim C1 is false on the code: on a fresh (never-initialized) session,
handling one bare `initialized` notification — while no `initialize` request
was ever validated or replied to, and indeed no outbound event is produced at
all — already flips the session's `authenticated` flag to `true`. -/
theorem mcp_C1_counterexample :
    (mapGet (handleMessage ctx0 reg1 "c1" (Except.ok (Decoded.obj initializedMsg))).reg
        "c1").map SSEConnection.authenticated = some true ∧
    (handleMessage ctx0 reg1 "c1" (Except.ok (Decoded.obj initializedMsg))).events = [] ∧
    c1.authenticated = false := by
  decide

/-- Claim C1 (amended): for every session and every sequence of inbound
messages handled on it, the session's `authenticated` flag equals its initial
value until a valid `initialized` notification is handled on that session (no
prior `initialize` request is required), becomes `true` at that point, and
never reverts: after the run the flag is `true` iff it was initially `true` or
some handled message was a valid `initialized` notification. -/
theorem mcp_C1_amended (cfg : MCPConfig) (ds : Downstream) (id : String)
    (msgs : List (Nat × InMsg)) (st : Registry) (c : SSEConnection)
    (hc : mapGet st id = some c) (hid : c.id = id) :
    ∀ c', mapGet (runMessages cfg ds st id msgs) id = some c' →
      c'.authenticated = (c.authenticated || msgs.any (fun tm => isInitializedMsg tm.2)) :=
  fun c' h' => (runMessages_auth cfg ds id msgs st c hc hid c' h').1

/-- Witness for `mcp_C1_amended` at a concrete run. -/
theorem mcp_C1_amended_witness :
    (⟨"c1", none, none, true, 3⟩ : SSEConnection).authenticated =
      (c1.authenticated ||
        List.any [(3, Except.ok (Decoded.obj initializedMsg))]
          (fun tm => isInitializedMsg tm.2)) :=
  mcp_C1_amended cfg0 ds0 "c1" [(3, Except.ok (Decoded.obj initializedMsg))] reg1 c1
    (by decide) (by decide) ⟨"c1", none, none, true, 3⟩ (by decide)

/-- Claim C2 is false on the code in two ways, exhibited on a fresh
(not Ready) session: the `initialized` notification (whose method is neither
`initialize` nor `ping`) is not rejected — it produces no response and flips
the session's `authenticated` flag, a state change — and a request with an
unrecognized method is rejected with `METHOD_NOT_FOUND`, not with an
authentication-class error. -/
theorem mcp_C2_counterexample :
    c1.authenticated = false ∧
    (handleMessage ctx0 reg1 "c1" (Except.ok (Decoded.obj initializedMsg))).events = [] ∧
    (mapGet (handleMessage ctx0 reg1 "c1" (Except.ok (Decoded.obj initializedMsg))).reg
        "c1").map SSEConnection.authenticated = some true ∧
    (handleMessage ctx0 reg1 "c1" (Except.ok (Decoded.obj bogusMsg))).events =
      [OutEvent.sse "c1" (OutMessage.response
        { id := some (MCPId.num 7), result := none,
          error := some { code := METHOD_NOT_FOUND,
                          message := "Method not found: bogus" } })] := by
  decide

/-- Claim C2 (amended): while a session is not Ready, any request whose method
is one of the six recognized post-handshake methods (`tools/list`,
`tools/call`, `resources/list`, `resources/read`, `prompts/list`,
`prompts/get`) is rejected with an authentication-class error, the catalog is
not invoked, and no session state changes except the `lastActivity` refresh;
`initialize`, `initialized` and `ping` are dispatched normally and an
unrecognized method yields `METHOD_NOT_FOUND` instead. -/
theorem mcp_C2_amended (ctx : Ctx) (st : Registry) (id : String) (c : SSEConnection)
    (m : MCPMessage) (mm : String)
    (hc : mapGet st id = some c) (hid : c.id = id) (hauth : c.authenticated = false)
    (hj : m.jsonrpc = "2.0") (hm : m.method = some mm) (hmem : mm ∈ gatedMethods)
    (hw : ctx.ds.writeOk id = true) :
    (handleMessage ctx st id (Except.ok (Decoded.obj m))).reg =
      mapUpdate st id (touch ctx.now) ∧
    (handleMessage ctx st id (Except.ok (Decoded.obj m))).calls = [] ∧
    (handleMessage ctx st id (Except.ok (Decoded.obj m))).events =
      [OutEvent.sse id (OutMessage.response
        { id := some (errorId m.id), result := none,
          error := some { code := AUTHENTICATION_ERROR,
                          message := "Connection not authenticated" } })] := by
  simp only [gatedMethods, List.mem_cons, List.not_mem_nil, or_false] at hmem
  rcases hmem with rfl | rfl | rfl | rfl | rfl | rfl <;>
    refine ⟨?_, ?_, ?_⟩ <;>
      simp [handleMessage, hc, isValidMCPMessage, hm, hj, strTruthy, handleRequest,
            handleToolsList, handleToolsCall, handleResourcesList, handleResourcesRead,
            handlePromptsList, handlePromptsGet, hauth, out0, sendError, sendResponse,
            sendMessage, touch_id, touch_auth, hid, hw, mapUpdate_mapUpdate, touch_touch]

/-- Witness for `mcp_C2_amended`: a `tools/list` request on a fresh session. -/
theorem mcp_C2_amended_witness :
    (handleMessage ctx0 reg1 "c1" (Except.ok (Decoded.obj toolsListMsg))).reg =
      mapUpdate reg1 "c1" (touch ctx0.now) ∧
    (handleMessage ctx0 reg1 "c1" (Except.ok (Decoded.obj toolsListMsg))).calls = [] ∧
    (handleMessage ctx0 reg1 "c1" (Except.ok (Decoded.obj toolsListMsg))).events =
      [OutEvent.sse "c1" (OutMessage.response
        { id := some (errorId toolsListMsg.id), result := none,
          error := some { code := AUTHENTICATION_ERROR,
                          message := "Connection not authenticated" } })] :=
  mcp_C2_amended ctx0 reg1 "c1" c1 toolsListMsg "tools/list"
    (by decide) (by decide) (by decide) (by decide) (by decide) (by decide) (by decide)

/-- Claim C3: on a Ready session, a `tools/call` request with a well-formed
tool name whose credential is missing (no argument bag, or a falsy
`access_token`) or fails downstream validation is answered with an
authentication-class error and the Operation Catalog's invoke entry point is
never reached. -/
theorem mcp_C3 (ctx : Ctx) (st : Registry) (id : String) (c : SSEConnection)
    (m : MCPMessage) (p : MCPParams)
    (hc : mapGet st id = some c) (hid : c.id = id) (hauth : c.authenticated = true)
    (hj : m.jsonrpc = "2.0") (hm : m.method = some "tools/call")
    (hp : m.params = some p) (hname : strTruthy p.name = true)
    (hcred : p.arguments = none ∨
      (∃ a, p.arguments = some a ∧ strTruthy a.access_token = false) ∨
      (∃ a, p.arguments = some a ∧ strTruthy a.access_token = true ∧
        ctx.ds.validateToken (a.access_token.getD "") = false))
    (hw : ctx.ds.writeOk id = true) :
    (handleMessage ctx st id (Except.ok (Decoded.obj m))).calls = [] ∧
    ∃ emsg, (handleMessage ctx st id (Except.ok (Decoded.obj m))).events =
      [OutEvent.sse id (OutMessage.response
        { id := some (errorId m.id), result := none,
          error := some { code := AUTHENTICATION_ERROR, message := emsg } })] := by
  have hv : isValidMCPMessage m = true := by
    simp [isValidMCPMessage, hj, hm, strTruthy]
  have hsm : strTruthy (some ("tools/call" : String)) = true := by decide
  rcases hcred with hargs | ⟨a, hargs, htok⟩ | ⟨a, hargs, htok, hval⟩
  · refine ⟨?_, "Canvas access token required", ?_⟩ <;>
      simp [handleMessage, hc, hv, hsm, handleRequest, hm, handleToolsCall, hauth,
            hp, hname, hargs, out0, sendError, sendResponse, sendMessage,
            touch_id, touch_auth, hid, hw]
  · refine ⟨?_, "Canvas access token required", ?_⟩ <;>
      simp [handleMessage, hc, hv, hsm, handleRequest, hm, handleToolsCall, hauth,
            hp, hname, hargs, htok, out0, sendError, sendResponse, sendMessage,
            touch_id, touch_auth, hid, hw]
  · refine ⟨?_, "Invalid Canvas access token", ?_⟩ <;>
      simp [handleMessage, hc, hv, hsm, handleRequest, hm, handleToolsCall, hauth,
            hp, hname, hargs, htok, hval, out0, sendError, sendResponse, sendMessage,
            touch_id, touch_auth, hid, hw]

/-- Witness for `mcp_C3`: a `tools/call` whose argument bag has no credential. -/
theorem mcp_C3_witness :
    (handleMessage ctx0 regReady "c1" (Except.ok (Decoded.obj toolsCallNoTokenMsg))).calls
      = [] ∧
    ∃ emsg,
      (handleMessage ctx0 regReady "c1" (Except.ok (Decoded.obj toolsCallNoTokenMsg))).events =
        [OutEvent.sse "c1" (OutMessage.response
          { id := some (errorId toolsCallNoTokenMsg.id), result := none,
            error := some { code := AUTHENTICATION_ERROR, message := emsg } })] :=
  mcp_C3 ctx0 regReady "c1" readyConn toolsCallNoTokenMsg
    { protocolVersion := none, capabilities := none, clientInfo := none,
      name := some "get_courses", arguments := some emptyArgs }
    (by decide) (by decide) (by decide) (by decide) (by decide) (by decide) (by decide)
    (Or.inr (Or.inl ⟨emptyArgs, by decide, by decide⟩)) (by decide)

/-- Claim C4: on a Ready session, a well-formed `tools/call` with a credential
that passes downstream validation, whose catalog execution throws (unknown
tool) or whose underlying Canvas call fails, is answered with a successful
envelope — `error` is absent — whose result is flagged `isError = true` and
carries one textual content block describing the failure. -/
theorem mcp_C4 (ctx : Ctx) (st : Registry) (id : String) (c : SSEConnection)
    (m : MCPMessage) (p : MCPParams) (a : ToolArguments)
    (hc : mapGet st id = some c) (hid : c.id = id) (hauth : c.authenticated = true)
    (hj : m.jsonrpc = "2.0") (hm : m.method = some "tools/call")
    (hp : m.params = some p) (hname : strTruthy p.name = true)
    (hargs : p.arguments = some a) (htok : strTruthy a.access_token = true)
    (hval : ctx.ds.validateToken (a.access_token.getD "") = true)
    (hw : ctx.ds.writeOk id = true)
    (hfail : (∃ e, executeTool ctx.ds (p.name.getD "") a = Except.error e) ∨
             (∃ e, ctx.ds.canvasCall (p.name.getD "") a = Except.error e)) :
    ∃ txt desc,
      (txt = "Error executing tool: " ++ desc ∨
       txt = "Error executing " ++ p.name.getD "" ++ ": " ++ desc) ∧
      (handleMessage ctx st id (Except.ok (Decoded.obj m))).events =
        [OutEvent.sse id (OutMessage.response
          { id := m.id,
            result := some (ResultPayload.toolResult
              { content := [{ text := txt }], isError := true }),
            error := none })] := by
  have hv : isValidMCPMessage m = true := by
    simp [isValidMCPMessage, hj, hm, strTruthy]
  have hsm : strTruthy (some ("tools/call" : String)) = true := by decide
  rcases hfail with ⟨e, hex⟩ | ⟨e, hcc⟩
  · refine ⟨"Error executing tool: " ++ e, e, Or.inl rfl, ?_⟩
    simp [handleMessage, hc, hv, hsm, handleRequest, hm, handleToolsCall, hauth,
          hp, hname, hargs, htok, hval, hex, out0, sendResponse, sendMessage,
          touch_id, touch_auth, hid, hw]
  · by_cases hmem : p.name.getD "" ∈ knownTools
    · have hex : executeTool ctx.ds (p.name.getD "") a =
          Except.ok { content := [{ text := "Error executing " ++ p.name.getD "" ++ ": " ++ e }],
                      isError := true } := by
        simp [executeTool, hmem, hcc]
      refine ⟨"Error executing " ++ p.name.getD "" ++ ": " ++ e, e, Or.inr rfl, ?_⟩
      simp [handleMessage, hc, hv, hsm, handleRequest, hm, handleToolsCall, hauth,
            hp, hname, hargs, htok, hval, hex, out0, sendResponse, sendMessage,
            touch_id, touch_auth, hid, hw]
    · have hex : executeTool ctx.ds (p.name.getD "") a =
          Except.error ("Tool not found: " ++ p.name.getD "") := by
        simp [executeTool, hmem]
      refine ⟨"Error executing tool: " ++ ("Tool not found: " ++ p.name.getD ""),
              "Tool not found: " ++ p.name.getD "", Or.inl rfl, ?_⟩
      simp [handleMessage, hc, hv, hsm, handleRequest, hm, handleToolsCall, hauth,
            hp, hname, hargs, htok, hval, hex, out0, sendResponse, sendMessage,
            touch_id, touch_auth, hid, hw]

/-- Witness for `mcp_C4`: a `tools/call` naming a tool absent from the catalog. -/
theorem mcp_C4_witness :
    ∃ txt desc,
      (txt = "Error executing tool: " ++ desc ∨
       txt = "Error executing " ++ "no_such_tool" ++ ": " ++ desc) ∧
      (handleMessage ctx0 regReady "c1"
          (Except.ok (Decoded.obj toolsCallUnknownToolMsg))).events =
        [OutEvent.sse "c1" (OutMessage.response
          { id := toolsCallUnknownToolMsg.id,
            result := some (ResultPayload.toolResult
              { content := [{ text := txt }], isError := true }),
            error := none })] :=
  mcp_C4 ctx0 regReady "c1" readyConn toolsCallUnknownToolMsg
    { protocolVersion := none, capabilities := none, clientInfo := none,
      name := some "no_such_tool",
      arguments := some { access_token := some "tok", fields := [] } }
    { access_token := some "tok", fields := [] }
    (by decide) (by decide) (by decide) (by decide) (by decide) (by decide) (by decide)
    (by decide) (by decide) (by decide) (by decide)
    (Or.inl ⟨"Tool not found: no_such_tool", rfl⟩)

theorem getPrompt_unknown (promptName : String) (a : ToolArguments)
    (h : promptName ∉ knownPrompts) :
    getPrompt promptName a = Except.error ("Prompt not found: " ++ promptName) := by
  simp only [knownPrompts, List.mem_cons, List.not_mem_nil, or_false, not_or] at h
  obtain ⟨h1, h2, h3⟩ := h
  simp [getPrompt, h1, h2, h3]

/-- Claim C5: on a Ready session, a `prompts/get` request whose name matches no
catalog prompt is answered with an envelope-level error carrying the
`INVALID_PROMPT` code — `result` is absent, so the failure is not wrapped as a
successful error-flagged payload. -/
theorem mcp_C5 (ctx : Ctx) (st : Registry) (id : String) (c : SSEConnection)
    (m : MCPMessage) (p : MCPParams)
    (hc : mapGet st id = some c) (hid : c.id = id) (hauth : c.authenticated = true)
    (hj : m.jsonrpc = "2.0") (hm : m.method = some "prompts/get")
    (hp : m.params = some p) (hname : strTruthy p.name = true)
    (hunknown : p.name.getD "" ∉ knownPrompts)
    (hw : ctx.ds.writeOk id = true) :
    (handleMessage ctx st id (Except.ok (Decoded.obj m))).events =
      [OutEvent.sse id (OutMessage.response
        { id := some (errorId m.id), result := none,
          error := some { code := INVALID_PROMPT,
                          message := "Prompt not found: " ++ p.name.getD "" } })] := by
  have hv : isValidMCPMessage m = true := by
    simp [isValidMCPMessage, hj, hm, strTruthy]
  have hsm : strTruthy (some ("prompts/get" : String)) = true := by decide
  have hgp := getPrompt_unknown (p.name.getD "")
    (p.arguments.getD { access_token := none, fields := [] }) hunknown
  simp [handleMessage, hc, hv, hsm, handleRequest, hm, handlePromptsGet, hauth,
        hp, hname, hgp, out0, sendError, sendResponse, sendMessage,
        touch_id, touch_auth, hid, hw]

/-- Witness for `mcp_C5`: a `prompts/get` for an unregistered prompt name. -/
theorem mcp_C5_witness :
    (handleMessage ctx0 regReady "c1" (Except.ok (Decoded.obj promptsGetUnknownMsg))).events =
      [OutEvent.sse "c1" (OutMessage.response
        { id := some (errorId promptsGetUnknownMsg.id), result := none,
          error := some { code := INVALID_PROMPT,
                          message := "Prompt not found: " ++ "no_such_prompt" } })] :=
  mcp_C5 ctx0 regReady "c1" readyConn promptsGetUnknownMsg
    { protocolVersion := none, capabilities := none, clientInfo := none,
      name := some "no_such_prompt", arguments := none }
    (by decide) (by decide) (by decide) (by decide) (by decide) (by decide) (by decide)
    (by decide) (by decide)

/-- Claim C6 is false on the code: the error response to malformed JSON does
carry an id — the sentinel string `"unknown"` that `sendError` substitutes for
the absent request id — rather than having no id set. -/
theorem mcp_C6_counterexample :
    (handleMessage ctx0 reg1 "c1" (Except.error "Unexpected end of JSON input")).events =
      [OutEvent.sse "c1" (OutMessage.response
        { id := some (MCPId.str "unknown"), result := none,
          error := some { code := PARSE_ERROR,
                          message := "Failed to parse JSON message" } })] ∧
    some (MCPId.str "unknown") ≠ (none : Option MCPId) := by
  decide

/-- Claim C6 (amended): for every inbound raw text on a known session that is
not well-formed JSON, the handler replies with a `PARSE_ERROR` error response
whose id is the sentinel string `"unknown"` (rather than no id at all). -/
theorem mcp_C6_amended (ctx : Ctx) (st : Registry) (id : String) (c : SSEConnection)
    (e : String) (hc : mapGet st id = some c) (hw : ctx.ds.writeOk id = true) :
    (handleMessage ctx st id (Except.error e)).events =
      [OutEvent.sse id (OutMessage.response
        { id := some (MCPId.str "unknown"), result := none,
          error := some { code := PARSE_ERROR,
                          message := "Failed to parse JSON message" } })] := by
  simp [handleMessage, hc, out0, sendError, sendResponse, sendMessage, hw, errorId]

/-- Witness for `mcp_C6_amended` at a concrete truncated payload. -/
theorem mcp_C6_amended_witness :
    (handleMessage ctx0 reg1 "c1" (Except.error "SyntaxError")).events =
      [OutEvent.sse "c1" (OutMessage.response
        { id := some (MCPId.str "unknown"), result := none,
          error := some { code := PARSE_ERROR,
                          message := "Failed to parse JSON message" } })] :=
  mcp_C6_amended ctx0 reg1 "c1" c1 "SyntaxError" (by decide) (by decide)

theorem strTruthy_iff (o : Option String) :
    strTruthy o = true ↔ ∃ s, o = some s ∧ s ≠ "" := by
  cases o <;> simp [strTruthy]

/-- Claim C7: the validity predicate accepts a decoded message iff it is a
JSON object carrying the protocol-version tag `"2.0"` and has a non-empty
`method`, or a `result`, or an `error`; every other decoded value is invalid. -/
theorem mcp_C7 (d : Decoded) :
    isValidDecoded d = true ↔
      ∃ m, d = Decoded.obj m ∧ m.jsonrpc = "2.0" ∧
        ((∃ s, m.method = some s ∧ s ≠ "") ∨ m.result ≠ none ∨ m.error ≠ none) := by
  cases d with
  | scalar => simp [isValidDecoded]
  | obj m =>
    constructor
    · intro h
      simp only [isValidDecoded, isValidMCPMessage, Bool.and_eq_true, Bool.or_eq_true,
        beq_iff_eq] at h
      refine ⟨m, rfl, h.1, ?_⟩
      rcases h.2 with (hs | hr) | he
      · exact Or.inl ((strTruthy_iff m.method).mp hs)
      · exact Or.inr (Or.inl (Option.isSome_iff_ne_none.mp hr))
      · exact Or.inr (Or.inr (Option.isSome_iff_ne_none.mp he))
    · rintro ⟨m', hm', hj, hrest⟩
      injection hm' with hmm
      subst hmm
      simp only [isValidDecoded, isValidMCPMessage, Bool.and_eq_true, Bool.or_eq_true,
        beq_iff_eq]
      refine ⟨hj, ?_⟩
      rcases hrest with hs | hr | he
      · exact Or.inl (Or.inl ((strTruthy_iff m.method).mpr hs))
      · exact Or.inl (Or.inr (Option.isSome_iff_ne_none.mpr hr))
      · exact Or.inr (Option.isSome_iff_ne_none.mpr he)

/-- Claim C8: an admission attempt at or above the configured maximum is
rejected with the fixed capacity error without creating a session or changing
the registry; an admission below the maximum with a fresh id creates exactly
one new (unauthenticated) session. -/
theorem mcp_C8 (ctx : Ctx) (st : Registry) (id : String) :
    (ctx.cfg.maxConnections ≤ st.length →
      addConnection ctx st id = (st, [OutEvent.httpReject])) ∧
    (st.length < ctx.cfg.maxConnections → mapGet st id = none →
      ctx.ds.writeOk id = true →
      (addConnection ctx st id).1.length = st.length + 1 ∧
      mapGet (addConnection ctx st id).1 id =
        some { id := id, clientInfo := none, capabilities := none,
               authenticated := false, lastActivity := ctx.now }) := by
  constructor
  · intro hmax
    unfold addConnection
    rw [if_pos hmax]
  · intro hlt hfresh hw
    unfold addConnection
    rw [if_neg (by omega)]
    simp only [sendMessage, hw, if_true]
    constructor
    · rw [length_mapUpdate, length_mapSet_of_fresh st id _ hfresh]
    · rw [mapGet_mapUpdate, if_pos rfl, mapGet_mapSet_self st id _ hfresh]
      rfl

/-- Witness for `mcp_C8`: a full registry rejects, a registry with room admits. -/
theorem mcp_C8_witness :
    addConnection ctx0 [("a", c1), ("b", c1)] "c3" =
      ([("a", c1), ("b", c1)], [OutEvent.httpReject]) ∧
    ((addConnection ctx0 reg1 "c2").1.length = reg1.length + 1 ∧
      mapGet (addConnection ctx0 reg1 "c2").1 "c2" =
        some { id := "c2", clientInfo := none, capabilities := none,
               authenticated := false, lastActivity := ctx0.now }) :=
  ⟨(mcp_C8 ctx0 [("a", c1), ("b", c1)] "c3").1 (by decide),
   (mcp_C8 ctx0 reg1 "c2").2 (by decide) (by decide) (by decide)⟩

theorem mapGet_filter_keep (P : SSEConnection → Bool) :
    ∀ (st : Registry) (id : String) (c : SSEConnection),
      mapGet st id = some c → P c = true →
      mapGet (st.filter (fun p => P p.2)) id = some c := by
  intro st
  induction st with
  | nil => intro id c h _; simp [mapGet] at h
  | cons p rest ih =>
    intro id c h hP
    obtain ⟨kk, cc⟩ := p
    by_cases hk : kk = id
    · subst hk
      rw [mapGet, if_pos rfl] at h
      cases h
      simp only [List.filter_cons, hP, if_true]
      rw [mapGet, if_pos rfl]
    · rw [mapGet, if_neg hk] at h
      simp only [List.filter_cons]
      by_cases hPc : P cc = true
      · simp only [hPc, if_true]
        rw [mapGet, if_neg hk]
        exact ih id c h hP
      · simp only [hPc]
        exact ih id c h hP

theorem mapGet_filter_of_none (P : SSEConnection → Bool) :
    ∀ (st : Registry) (id : String), mapGet st id = none →
      mapGet (st.filter (fun p => P p.2)) id = none := by
  intro st
  induction st with
  | nil => intro id _; rfl
  | cons p rest ih =>
    intro id h
    obtain ⟨kk, cc⟩ := p
    by_cases hk : kk = id
    · rw [mapGet, if_pos hk] at h; cases h
    · rw [mapGet, if_neg hk] at h
      simp only [List.filter_cons]
      by_cases hPc : P cc = true
      · simp only [hPc, if_true]
        rw [mapGet, if_neg hk]
        exact ih id h
      · simp only [hPc]
        exact ih id h

theorem mapGet_filter_drop (P : SSEConnection → Bool) :
    ∀ (st : Registry) (id : String) (c : SSEConnection),
      (st.map Prod.fst).Nodup →
      mapGet st id = some c → P c = false →
      mapGet (st.filter (fun p => P p.2)) id = none := by
  intro st
  induction st with
  | nil => intro id c _ h; simp [mapGet] at h
  | cons p rest ih =>
    intro id c hnd h hP
    obtain ⟨kk, cc⟩ := p
    rw [List.map_cons, List.nodup_cons] at hnd
    by_cases hk : kk = id
    · subst hk
      rw [mapGet, if_pos rfl] at h
      cases h
      simp only [List.filter_cons, hP, Bool.false_eq_true, if_false]
      apply mapGet_filter_of_none
      rw [mapGet_eq_none_iff]
      exact hnd.1
    · rw [mapGet, if_neg hk] at h
      simp only [List.filter_cons]
      by_cases hPc : P cc = true
      · simp only [hPc, if_true]
        rw [mapGet, if_neg hk]
        exact ih id c hnd.2 h hP
      · simp only [hPc]
        exact ih id c hnd.2 h hP

theorem hbStep_fst_none (ctx : Ctx) (acc : Registry × List OutEvent) (k id : String)
    (h : mapGet acc.1 id = none) : mapGet (hbStep ctx acc k).1 id = none := by
  unfold hbStep sendMessage removeConnection
  by_cases hwk : ctx.ds.writeOk k = true
  · simp only [hwk, if_true]
    rw [mapGet_mapUpdate]
    by_cases hk : k = id
    · rw [if_pos hk, h]; rfl
    · rw [if_neg hk]; exact h
  · rw [if_neg hwk]
    cases hg : mapGet acc.1 k with
    | none => exact h
    | some _ =>
      rw [mapGet_mapDelete]
      by_cases hk : k = id
      · rw [if_pos hk]
      · rw [if_neg hk]; exact h

theorem hbFold_none (ctx : Ctx) (id : String) :
    ∀ (l : List String) (acc : Registry × List OutEvent), mapGet acc.1 id = none →
      mapGet (l.foldl (hbStep ctx) acc).1 id = none := by
  intro l
  induction l with
  | nil => intro acc h; exact h
  | cons k rest ih =>
    intro acc h
    rw [List.foldl_cons]
    exact ih _ (hbStep_fst_none ctx acc k id h)

theorem hbStep_fst_other (ctx : Ctx) (acc : Registry × List OutEvent) (k id : String)
    (hk : k ≠ id) (c : SSEConnection) (h : mapGet acc.1 id = some c) :
    mapGet (hbStep ctx acc k).1 id = some c := by
  unfold hbStep sendMessage removeConnection
  by_cases hwk : ctx.ds.writeOk k = true
  · simp only [hwk, if_true]
    rw [mapGet_mapUpdate, if_neg hk]
    exact h
  · rw [if_neg hwk]
    cases hg : mapGet acc.1 k with
    | none => exact h
    | some _ =>
      rw [mapGet_mapDelete, if_neg hk]
      exact h

theorem hbFold_some (ctx : Ctx) (id : String) (hw : ctx.ds.writeOk id = true) :
    ∀ (l : List String) (acc : Registry × List OutEvent) (c : SSEConnection),
      mapGet acc.1 id = some c →
      mapGet (l.foldl (hbStep ctx) acc).1 id =
        some (if id ∈ l then touch ctx.now c else c) := by
  intro l
  induction l with
  | nil => intro acc c h; simpa using h
  | cons k rest ih =>
    intro acc c h
    rw [List.foldl_cons]
    by_cases hk : k = id
    · subst hk
      have h1 : mapGet (hbStep ctx acc k).1 k = some (touch ctx.now c) := by
        unfold hbStep sendMessage
        simp only [hw, if_true]
        rw [mapGet_mapUpdate, if_pos rfl, h]
        rfl
      rw [ih _ _ h1]
      by_cases hmem : k ∈ rest <;> simp [hmem, touch_touch]
    · have h1 : mapGet (hbStep ctx acc k).1 id = some c :=
        hbStep_fst_other ctx acc k id hk c h
      rw [ih _ _ h1]
      have hne : ¬ id = k := fun hh => hk hh.symm
      simp [List.mem_cons, hne]

/-- Claim C9 is false on the code: the keep-alive push of a sweeper tick
writes `lastActivity` on every surviving session (the shared `sendMessage`
refreshes it after a successful transport write), as shown on a session whose
`lastActivity` moves from 0 to the tick instant 5. -/
theorem mcp_C9_counterexample :
    (mapGet (heartbeatTick ctx0 reg1).1 "c1").map SSEConnection.lastActivity = some 5 ∧
    (mapGet reg1 "c1").map SSEConnection.lastActivity = some 0 := by
  decide

/-- Claim C9 (amended): during a sweeper tick, a session whose staleness check
fires is evicted, and every surviving session is unchanged except for
`lastActivity`, which the keep-alive push (not the eviction scan) refreshes to
the tick instant when the transport write succeeds. -/
theorem mcp_C9_amended (ctx : Ctx) (st : Registry) (id : String) (c : SSEConnection)
    (hc : mapGet st id = some c) (hnd : (st.map Prod.fst).Nodup)
    (hw : ctx.ds.writeOk id = true) :
    (isStale ctx c = true → mapGet (heartbeatTick ctx st).1 id = none) ∧
    (isStale ctx c = false →
      mapGet (heartbeatTick ctx st).1 id = some { c with lastActivity := ctx.now }) := by
  constructor
  · intro hstale
    have h1 : mapGet (st.filter (fun p => !(isStale ctx p.2))) id = none :=
      mapGet_filter_drop (fun cc => !(isStale ctx cc)) st id c hnd hc
        (by simp [hstale])
    unfold heartbeatTick cleanupStaleConnections sendHeartbeat
    exact hbFold_none ctx id _ _ h1
  · intro hfresh
    have h1 : mapGet (st.filter (fun p => !(isStale ctx p.2))) id = some c :=
      mapGet_filter_keep (fun cc => !(isStale ctx cc)) st id c hc
        (by simp [hfresh])
    have hmem : id ∈ (st.filter (fun p => !(isStale ctx p.2))).map Prod.fst := by
      by_contra hmem
      rw [← mapGet_eq_none_iff] at hmem
      rw [hmem] at h1
      cases h1
    unfold heartbeatTick cleanupStaleConnections sendHeartbeat
    rw [hbFold_some ctx id hw _ _ c h1, if_pos hmem]
    rfl

/-- Witness for `mcp_C9_amended`: the fresh session survives the tick with only
`lastActivity` refreshed. -/
theorem mcp_C9_amended_witness :
    mapGet (heartbeatTick ctx0 reg1).1 "c1" =
      some { c1 with lastActivity := ctx0.now } :=
  (mcp_C9_amended ctx0 reg1 "c1" c1 (by decide) (by decide) (by decide)).2 (by decide)

/-- Claim C10: an outbound error response echoes the originating request's id
unless that id is absent or falsy (the number 0 or the empty string), in which
case the id is the string "unknown". -/
theorem mcp_C10 (i : Option MCPId) :
    ((i = none ∨ i = some (MCPId.num 0) ∨ i = some (MCPId.str "")) →
      errorId i = MCPId.str "unknown") ∧
    (∀ j, i = some j → j ≠ MCPId.num 0 → j ≠ MCPId.str "" → errorId i = j) := by
  constructor
  · rintro (rfl | rfl | rfl) <;> rfl
  · rintro j rfl h0 he
    cases j with
    | num n =>
      have hn : ¬ n = 0 := fun hh => h0 (by rw [hh])
      simp [errorId, MCPId.isFalsy, hn]
    | str s =>
      have hs : ¬ s = "" := fun hh => he (by rw [hh])
      simp [errorId, MCPId.isFalsy, hs]

/-- Witness for `mcp_C10`: a falsy numeric id and an ordinary numeric id. -/
theorem mcp_C10_witness :
    errorId (some (MCPId.num 0)) = MCPId.str "unknown" ∧
    errorId (some (MCPId.num 7)) = MCPId.num 7 :=
  ⟨(mcp_C10 (some (MCPId.num 0))).1 (Or.inr (Or.inl rfl)),
   (mcp_C10 (some (MCPId.num 7))).2 (MCPId.num 7) rfl (by decide) (by decide)⟩

end CanvasMcp
